import Mathlib

/-!
Verification development for the JVMCI / Graal code-installation bridge.

Sources embedded here:

* `src/share/vm/jvmci/jvmciCodeInstaller.hpp` : the `CodeInstaller` class
  declaration (the `MarkId` enumeration, the `_next_call_type` slot, the
  per-site handlers and the virtual-object recorder).
* `src/share/vm/graal/graalCompiler.cpp` : `GraalCompiler::initialize`,
  `start_compilation_queue`, `bootstrap`, `compile_method`,
  `compile_the_world`.

Definitions come first, theorems afterwards.
-/

set_option autoImplicit false

/-! ## `CodeInstaller::MarkId` (jvmciCodeInstaller.hpp, lines 36-54) -/

/-- The enumerators of `CodeInstaller::MarkId`, in declaration order. -/
inductive MarkId where
  | VERIFIED_ENTRY
  | UNVERIFIED_ENTRY
  | OSR_ENTRY
  | EXCEPTION_HANDLER_ENTRY
  | DEOPT_HANDLER_ENTRY
  | INVOKEINTERFACE
  | INVOKEVIRTUAL
  | INVOKESTATIC
  | INVOKESPECIAL
  | INLINE_INVOKE
  | POLL_NEAR
  | POLL_RETURN_NEAR
  | POLL_FAR
  | POLL_RETURN_FAR
  | CARD_TABLE_ADDRESS
  | CARD_TABLE_SHIFT
  | INVOKE_INVALID
  deriving DecidableEq, Repr

/-- The numeric value the enumeration gives each enumerator. -/
def MarkId.code : MarkId → Int
  | .VERIFIED_ENTRY          => 1
  | .UNVERIFIED_ENTRY        => 2
  | .OSR_ENTRY               => 3
  | .EXCEPTION_HANDLER_ENTRY => 4
  | .DEOPT_HANDLER_ENTRY     => 5
  | .INVOKEINTERFACE         => 6
  | .INVOKEVIRTUAL           => 7
  | .INVOKESTATIC            => 8
  | .INVOKESPECIAL           => 9
  | .INLINE_INVOKE           => 10
  | .POLL_NEAR               => 11
  | .POLL_RETURN_NEAR        => 12
  | .POLL_FAR                => 13
  | .POLL_RETURN_FAR         => 14
  | .CARD_TABLE_ADDRESS      => 15
  | .CARD_TABLE_SHIFT        => 16
  | .INVOKE_INVALID          => -1

/-- All seventeen enumerators, in declaration order. -/
def MarkId.all : List MarkId :=
  [.VERIFIED_ENTRY, .UNVERIFIED_ENTRY, .OSR_ENTRY, .EXCEPTION_HANDLER_ENTRY,
   .DEOPT_HANDLER_ENTRY, .INVOKEINTERFACE, .INVOKEVIRTUAL, .INVOKESTATIC,
   .INVOKESPECIAL, .INLINE_INVOKE, .POLL_NEAR, .POLL_RETURN_NEAR, .POLL_FAR,
   .POLL_RETURN_FAR, .CARD_TABLE_ADDRESS, .CARD_TABLE_SHIFT, .INVOKE_INVALID]

/-- Modelled from the spec: the classification of marks, which the missing
`site_Mark` body applies. Entry-point marks are "verified/unverified entry,
OSR entry, exception-handler entry, deopt-handler entry" (spec 4.2). -/
def MarkId.is_entry_point : MarkId → Bool
  | .VERIFIED_ENTRY | .UNVERIFIED_ENTRY | .OSR_ENTRY
  | .EXCEPTION_HANDLER_ENTRY | .DEOPT_HANDLER_ENTRY => true
  | _ => false

/-- Modelled from the spec: the invoke-kind marks of the missing `site_Mark`
body, "one of the four invoke-kind values (interface/virtual/static/special)
or `INLINE_INVOKE`" (spec 3). -/
def MarkId.is_invoke_kind : MarkId → Bool
  | .INVOKEINTERFACE | .INVOKEVIRTUAL | .INVOKESTATIC
  | .INVOKESPECIAL | .INLINE_INVOKE => true
  | _ => false

/-- Modelled from the spec: the poll-point marks of the missing `site_Mark`
body (spec 3, "poll points"; near/far and return variants, spec 4.3). -/
def MarkId.is_poll : MarkId → Bool
  | .POLL_NEAR | .POLL_RETURN_NEAR | .POLL_FAR | .POLL_RETURN_FAR => true
  | _ => false

/-- Modelled from the spec: the card-table marks of the missing `site_Mark`
body (spec 3, "card-table address/shift"). -/
def MarkId.is_card_table : MarkId → Bool
  | .CARD_TABLE_ADDRESS | .CARD_TABLE_SHIFT => true
  | _ => false


/-! ## `GraalCompiler` (graalCompiler.cpp)

The VM is a record of the global flags the file reads or writes, the two
fields of the compiler object it touches (`_compiler_state`, written by
`set_state` and possibly by the member function `should_perform_init`, and
`_bootstrapping`), the remainder of the VM (`world`), and two logs: the
`set_state` calls and the Java upcalls, each upcall with the flags in force
when it was made.

What HotSpot declares outside these sources is collected in `HotSpot`: the
constants `failed`, `initialized`, `InvocationEntryBci`, and the effect of the
helpers that are only called here. -/

/-- The preprocessor symbols tested by graalCompiler.cpp. -/
structure BuildConfig where
  COMPILERGRAAL : Bool
  PRODUCT : Bool
  deriving DecidableEq, Repr

/-- The global flags used by graalCompiler.cpp; `BootstrapGraal_IS_DEFAULT`
is the value of `FLAG_IS_DEFAULT(BootstrapGraal)`. -/
structure Flags where
  UseCompiler : Bool
  UseGraalCompilationQueue : Bool
  BootstrapGraal : Bool
  BootstrapGraal_IS_DEFAULT : Bool
  TieredCompilation : Bool
  UseInterpreter : Bool
  BackgroundCompilation : Bool
  CompileTheWorld : Bool
  deriving DecidableEq, Repr

/-- A value pushed on `JavaCallArguments`. -/
inductive JavaArg where
  | push_long (v : Int)
  | push_int (v : Int)
  | push_oop (o : Nat)
  deriving DecidableEq, Repr

/-- The Java classes graalCompiler.cpp loads or calls into. -/
inductive GraalClass where
  | CompilationQueue
  | CompilationTask
  | HotSpotGraalRuntime
  deriving DecidableEq, Repr

/-- The Java entry points reached from graalCompiler.cpp:
`klass->initialize` of `CompilationQueue`, `call_static` of `shutdown`,
`bootstrap` and `compileMetaspaceMethod`, `call_special` of
`compileTheWorld`. -/
inductive JavaMethod where
  | class_initializer
  | shutdown
  | bootstrap
  | compileMetaspaceMethod
  | compileTheWorld
  deriving DecidableEq, Repr

/-- One upcall into Java: receiver class, method and pushed arguments. -/
structure JavaCall where
  klass : GraalClass
  method : JavaMethod
  args : List JavaArg
  deriving DecidableEq, Repr

/-- The VM state seen by graalCompiler.cpp. `St` is the type of compiler
states, `W` the rest of the VM. -/
structure VM (W St : Type) where
  flags : Flags
  _compiler_state : St
  set_state_log : List St
  _bootstrapping : Bool
  world : W
  upcalls : List (JavaCall × Flags)

/-- What graalCompiler.cpp uses and HotSpot declares elsewhere. `java_call`
gives the effect of a Java upcall on the rest of the VM and whether an
exception is pending when it comes back. `should_perform_init` is a member
function of the compiler object (inherited from `AbstractCompiler`): it reads
the state flag and may write it, without going through `set_state`, so it
returns its answer, the state flag it leaves and the rest of the VM. The other
helpers act on `world` only. -/
structure HotSpot (W St : Type) where
  failed : St
  initialized : St
  InvocationEntryBci : Int
  should_perform_init : St → W → Bool × St × W
  initialize_buffer_blob : W → Option Nat × W
  load_required_class : GraalClass → W → W
  completed_vm_startup : W → W
  get_HotSpotGraalRuntime : W → Nat
  java_call : JavaCall → Flags → W → W × Bool

/-- How a C++ function of the file ends: it returns, or the VM is aborted by
`GUARANTEE_NO_PENDING_EXCEPTION`. -/
inductive Outcome (α : Type) where
  | returns (s : α)
  | vm_abort (s : α)

/-- The state an outcome carries. -/
def Outcome.state {α : Type} : Outcome α → α
  | .returns s => s
  | .vm_abort s => s

/-- Sequencing: what follows runs only when the first part returned. -/
def Outcome.andThen {α : Type} (o : Outcome α) (k : α → Outcome α) : Outcome α :=
  match o with
  | .returns s => k s
  | .vm_abort s => .vm_abort s

/-- The pointer-to-`jlong` cast `(jlong) (address) p` on a 64-bit VM: the
64 bits of the pointer read as a signed integer. -/
def jlong_of_address (p : Nat) : Int :=
  if p % 2 ^ 64 < 2 ^ 63 then ((p % 2 ^ 64 : Nat) : Int)
  else ((p % 2 ^ 64 : Nat) : Int) - 2 ^ 64

/-- The method `AbstractCompiler::set_state`, declared outside these sources;
by the comment at its call site it updates the state flag. The call is
logged. -/
def set_state {W St : Type} (s : VM W St) (state : St) : VM W St :=
  { s with _compiler_state := state, set_state_log := s.set_state_log ++ [state] }

/-- A `JavaCalls::call_*` (or `klass->initialize`) followed by
`GUARANTEE_NO_PENDING_EXCEPTION`: the upcall is logged with the flags in
force, and a pending exception aborts the VM. -/
def java_upcall {W St : Type} (hs : HotSpot W St) (c : JavaCall) (s : VM W St) :
    Outcome (VM W St) :=
  let r := hs.java_call c s.flags s.world
  let s1 := { s with world := r.1, upcalls := s.upcalls ++ [(c, s.flags)] }
  if r.2 then .vm_abort s1 else .returns s1

/-- The three flags that `GraalCompiler::initialize` guards by a
`FlagSetting`. -/
inductive FlagRef where
  | UseInterpreter
  | BackgroundCompilation
  | CompileTheWorld
  deriving DecidableEq, Repr

/-- Reads the flag a `FlagRef` designates. -/
def FlagRef.get : FlagRef → Flags → Bool
  | .UseInterpreter, f => f.UseInterpreter
  | .BackgroundCompilation, f => f.BackgroundCompilation
  | .CompileTheWorld, f => f.CompileTheWorld

/-- Writes the flag a `FlagRef` designates. -/
def FlagRef.set : FlagRef → Bool → Flags → Flags
  | .UseInterpreter, v, f => { f with UseInterpreter := v }
  | .BackgroundCompilation, v, f => { f with BackgroundCompilation := v }
  | .CompileTheWorld, v, f => { f with CompileTheWorld := v }

/-- HotSpot's scope guard `FlagSetting` (declared outside these sources): it
remembers which flag it guards and the value the flag had. The comments at
its three uses say what it does while in scope: "turning on interpreter and
background compilation for bootstrapping", "Turn off CompileTheWorld during
bootstrap"; leaving the scope undoes the setting. -/
structure FlagSetting where
  flag : FlagRef
  val : Bool
  deriving DecidableEq, Repr

/-- Constructor `FlagSetting(fl, newValue)`: saves the flag and sets it. -/
def FlagSetting.ctor (fl : FlagRef) (newValue : Bool) (f : Flags) : FlagSetting × Flags :=
  ({ flag := fl, val := fl.get f }, fl.set newValue f)

/-- Destructor of `FlagSetting`: writes the saved value back. -/
def FlagSetting.dtor (g : FlagSetting) (f : Flags) : Flags :=
  g.flag.set g.val f

/-- Function `GraalCompiler::start_compilation_queue` (lines 96-104). -/
def start_compilation_queue {W St : Type} (hs : HotSpot W St) (s : VM W St) :
    Outcome (VM W St) :=
  let s1 := { s with world := hs.load_required_class .CompilationQueue s.world }
  java_upcall hs ⟨.CompilationQueue, .class_initializer, []⟩ s1

/-- Function `GraalCompiler::shutdown_compilation_queue` (lines 107-116). -/
def shutdown_compilation_queue {W St : Type} (hs : HotSpot W St) (s : VM W St) :
    Outcome (VM W St) :=
  let s1 := { s with world := hs.load_required_class .CompilationQueue s.world }
  java_upcall hs ⟨.CompilationQueue, .shutdown, []⟩ s1

/-- Function `GraalCompiler::bootstrap` (lines 118-127). -/
def bootstrap {W St : Type} (hs : HotSpot W St) (s : VM W St) : Outcome (VM W St) :=
  let s1 := { s with world := hs.load_required_class .CompilationQueue s.world }
  java_upcall hs ⟨.CompilationQueue, .bootstrap, []⟩ s1

/-- Function `GraalCompiler::compile_the_world` (lines 168-182, non-product builds). -/
def compile_the_world {W St : Type} (hs : HotSpot W St) (s : VM W St) :
    Outcome (VM W St) :=
  let s1 := { s with flags := { s.flags with CompileTheWorld := false } }
  let s2 := { s1 with world := hs.load_required_class .HotSpotGraalRuntime s1.world }
  java_upcall hs ⟨.HotSpotGraalRuntime, .compileTheWorld,
    [.push_oop (hs.get_HotSpotGraalRuntime s2.world)]⟩ s2

/-- Function `GraalCompiler::compile_method(methodHandle, int, CompileTask*, jboolean)`
(lines 129-148). `method` and `task` are the two pointers, `blocking` a
`jboolean` (an unsigned byte). -/
def compile_method {W St : Type} (hs : HotSpot W St) (method : Nat) (entry_bci : Int)
    (task : Nat) (blocking : Fin 256) (s : VM W St) : Outcome (VM W St) :=
  let is_osr := decide (entry_bci ≠ hs.InvocationEntryBci)
  if s._bootstrapping && is_osr then
    .returns s
  else
    java_upcall hs ⟨.CompilationTask, .compileMetaspaceMethod,
      [.push_long (jlong_of_address method), .push_int entry_bci,
       .push_long (jlong_of_address task), .push_int (blocking.val : Int)]⟩ s

/-- Part of `GraalCompiler::initialize`, lines 50-71: from the buffer blob to
`completed_vm_startup`, the part between the early return and the bootstrap
block. -/
def initialize_startup {W St : Type} (hs : HotSpot W St) (s : VM W St) :
    Outcome (VM W St) :=
  let r := hs.initialize_buffer_blob s.world
  let buffer_blob := r.1
  let s1 := { s with world := r.2 }
  let s2 :=
    if !s1.flags.UseGraalCompilationQueue then
      if buffer_blob = none then set_state s1 hs.failed
      else set_state s1 hs.initialized
    else s1
  let s3 := { s2 with _bootstrapping :=
    s2.flags.UseGraalCompilationQueue &&
      (if s2.flags.BootstrapGraal_IS_DEFAULT then !s2.flags.TieredCompilation
       else s2.flags.BootstrapGraal) }
  (start_compilation_queue hs s3).andThen fun s4 =>
    .returns { s4 with world := hs.completed_vm_startup s4.world }

/-- Part of `GraalCompiler::initialize`, lines 73-84: the bootstrap block. The three
guards are constructed in the order `a`, `b`, `c` and destroyed in reverse
order when `bootstrap()` has returned; `c` exists in non-product builds
only. -/
def initialize_bootstrap_block {W St : Type} (cfg : BuildConfig) (hs : HotSpot W St)
    (s : VM W St) : Outcome (VM W St) :=
  if s._bootstrapping then
    let a := FlagSetting.ctor .UseInterpreter true s.flags
    let b := FlagSetting.ctor .BackgroundCompilation true a.2
    if cfg.PRODUCT then
      match bootstrap hs { s with flags := b.2 } with
      | .returns t =>
        .returns { t with flags := a.1.dtor (b.1.dtor t.flags) }
      | .vm_abort t => .vm_abort t
    else
      let c := FlagSetting.ctor .CompileTheWorld false b.2
      match bootstrap hs { s with flags := c.2 } with
      | .returns t =>
        .returns { t with flags := a.1.dtor (b.1.dtor (c.1.dtor t.flags)) }
      | .vm_abort t => .vm_abort t
  else .returns s

/-- Part of `GraalCompiler::initialize`, lines 86-90: `compile_the_world()` in
non-product builds when `CompileTheWorld` is set. -/
def initialize_compile_the_world {W St : Type} (cfg : BuildConfig) (hs : HotSpot W St)
    (s : VM W St) : Outcome (VM W St) :=
  if !cfg.PRODUCT && s.flags.CompileTheWorld then compile_the_world hs s
  else .returns s

/-- Function `GraalCompiler::initialize` (lines 44-93). -/
def GraalCompiler_initialize {W St : Type} (cfg : BuildConfig) (hs : HotSpot W St)
    (s : VM W St) : Outcome (VM W St) :=
  if cfg.COMPILERGRAAL then
    if !s.flags.UseCompiler then .returns s
    else
      let r := hs.should_perform_init s._compiler_state s.world
      let s0 := { s with _compiler_state := r.2.1, world := r.2.2 }
      if !r.1 then .returns s0
      else
        ((initialize_startup hs s0).andThen (initialize_bootstrap_block cfg hs)).andThen
          (initialize_compile_the_world cfg hs)
  else .returns s

/-- A small instance of `HotSpot` for concrete runs: compiler states are
numbers (`0` uninitialized, `1` initializing, `2` initialized, `3` failed), the
rest of the VM is a counter of external actions, the buffer blob is allocated,
and no upcall leaves an exception pending. `should_perform_init` is the one of
upstream HotSpot (runtime/abstractCompiler.cpp, outside these sources) as the
first compiler thread meets it: on the state uninitialized it sets the state to
initializing and answers true, otherwise it answers false. -/
def example_hotspot : HotSpot Nat Nat :=
  { failed := 3, initialized := 2, InvocationEntryBci := -1,
    should_perform_init := fun st w => if st = 0 then (true, 1, w) else (false, st, w),
    initialize_buffer_blob := fun w => (some 4096, w + 1),
    load_required_class := fun _ w => w,
    completed_vm_startup := fun w => w,
    get_HotSpotGraalRuntime := fun _ => 99,
    java_call := fun _ _ w => (w + 1, false) }

/-- Flags of a run with the native queue: `-Xcomp`-like settings
(`UseInterpreter` and `BackgroundCompilation` off). -/
def example_flags_native : Flags :=
  { UseCompiler := true, UseGraalCompilationQueue := false, BootstrapGraal := false,
    BootstrapGraal_IS_DEFAULT := true, TieredCompilation := false,
    UseInterpreter := false, BackgroundCompilation := false, CompileTheWorld := false }

/-- Flags of a run with the Graal queue that bootstraps, with `UseInterpreter`
and `BackgroundCompilation` off and `CompileTheWorld` on. -/
def example_flags_queue : Flags :=
  { UseCompiler := true, UseGraalCompilationQueue := true, BootstrapGraal := false,
    BootstrapGraal_IS_DEFAULT := true, TieredCompilation := false,
    UseInterpreter := false, BackgroundCompilation := false, CompileTheWorld := true }

/-- A VM about to run `initialize`, with the given flags. -/
def example_vm (f : Flags) : VM Nat Nat :=
  { flags := f, _compiler_state := 0, set_state_log := [], _bootstrapping := false,
    world := 0, upcalls := [] }

/-- The VM of `example_vm example_flags_queue` when `initialize` reaches the
bootstrap block: the state is initializing, the buffer blob is allocated, the
compilation queue class is initialised, and `_bootstrapping` is set. -/
def example_vm_at_block : VM Nat Nat :=
  { flags := example_flags_queue, _compiler_state := 1, set_state_log := [],
    _bootstrapping := true, world := 2,
    upcalls := [(⟨.CompilationQueue, .class_initializer, []⟩, example_flags_queue)] }

/-! ## `CodeInstaller`: the site resolver

The header declares the `_next_call_type` slot, `_invoke_mark_pc`, `_offsets`,
the exception-handler table and the per-site handlers; their bodies are not
part of these sources and are modelled from the specification (sections 3,
4.2, 4.6 and 7). The installer modelled is that of a platform whose calling
convention requires a call type for a call, the case the specification
describes. `D` is the type of debug-info descriptions carried by sites. -/

/-- Modelled from the spec: the resolved target of a call, missing with the
`site_Call` body: "direct method, foreign runtime function, or indirect"
(spec 4.2). -/
inductive CallTarget where
  | direct_method (method : Nat)
  | foreign (address : Nat)
  | indirect
  deriving DecidableEq, Repr

/-- Modelled from the spec: what a `DataPatch` site refers to, missing with
the `site_DataPatch` body: "object reference, metaspace pointer, or raw
data-section offset" (spec 4.2). -/
inductive Reference where
  | oop (handle : Nat)
  | metaspace (pointer : Nat)
  | data_section (offset : Int)
  deriving DecidableEq, Repr

/-- Modelled from the spec: the `Site` variant of spec 3, whose Java-side
declaration is missing; every site carries its `pc_offset`. -/
inductive Site (D : Type) where
  | Safepoint (pc_offset : Int) (debug_info : D)
  | Infopoint (pc_offset : Int) (debug_info : D) (kind : Nat)
  | Call (pc_offset : Int) (debug_info : Option D) (target : CallTarget) (is_direct : Bool)
  | DataPatch (pc_offset : Int) (reference : Reference)
  | Mark (pc_offset : Int) (mark_id : MarkId)
  | ExceptionHandler (pc_offset : Int) (handler_pc : Int)

/-- Modelled from the spec: the part of `CompiledCodeDescriptor` (spec 3) that
site resolution reads; its Java-side declaration is missing. -/
structure CompiledCodeDescriptor (D : Type) where
  code : List Nat
  data_section : List Nat
  sites : List (Site D)
  total_frame_size : Int
  parameter_count : Int

/-- Modelled from the spec: a patch handed to the Relocation Engine (spec
4.3), whose `pd_*` bodies are missing. A call patch records the call type it
was made under. -/
inductive Patch where
  | call (pc_offset : Int) (target : CallTarget) (call_type : MarkId)
  | poll (pc_offset : Int) (mark : MarkId)
  | card_table (pc_offset : Int) (mark : MarkId)
  | data (pc_offset : Int) (reference : Reference)
  deriving DecidableEq, Repr

/-- Modelled from the spec: the errors of the missing site handlers, all
"malformed input" in the taxonomy of spec 7. -/
inductive SiteError where
  | out_of_order_site
  | no_pending_call_type
  | stale_call_type
  | duplicate_invoke_mark
  | invalid_mark
  | data_patch_out_of_bounds
  deriving DecidableEq, Repr

/-- Modelled from the spec: the `InstalledCodeResult` enumeration of spec 3
(`JVMCIEnv::CodeInstallResult` in the header, declared elsewhere). -/
inductive CodeInstallResult where
  | ok
  | dependencies_invalid
  | cache_full
  | code_too_large
  | pending_exception
  | bailout
  deriving DecidableEq, Repr

/-- The fields of `CodeInstaller` that site resolution reads or writes:
`_next_call_type`, `_invoke_mark_pc`, `_offsets` and
`_exception_handler_table` are declared in the header; `patches`, `scopes`
and `pending_poll_kind` stand for the `CodeBuffer`, the
`DebugInformationRecorder` and the "pending poll kind" of spec 4.2. -/
structure CodeInstaller (D : Type) where
  _next_call_type : MarkId
  _invoke_mark_pc : Int
  pending_poll_kind : Option MarkId
  _offsets : List (MarkId × Int)
  patches : List Patch
  scopes : List (Int × D)
  _exception_handler_table : List (Int × Int)

/-- An installer for concrete runs: the slot empty and every table empty. The
constructor in the header initialises `_arena` only, so the state in which the
site loop starts is an argument of `initialize_buffer` and `install`
below. -/
def example_installer : CodeInstaller Nat :=
  { _next_call_type := .INVOKE_INVALID, _invoke_mark_pc := 0, pending_poll_kind := none,
    _offsets := [], patches := [], scopes := [], _exception_handler_table := [] }

/-- Modelled from the spec: the missing body of `site_Mark` (spec 4.2 and 3).
An invoke-kind mark fills the pending-call-type slot, and it is an error for
the slot to be filled already; an entry-point mark records its offset; a poll
mark sets the pending poll kind and is patched; a card-table mark is patched;
`INVOKE_INVALID` is no mark. -/
def site_Mark {D : Type} (st : CodeInstaller D) (pc_offset : Int) (id : MarkId) :
    Except SiteError (CodeInstaller D) :=
  if id.is_invoke_kind then
    if st._next_call_type = .INVOKE_INVALID then
      .ok { st with _next_call_type := id, _invoke_mark_pc := pc_offset }
    else .error .duplicate_invoke_mark
  else if id.is_entry_point then
    .ok { st with _offsets := st._offsets ++ [(id, pc_offset)] }
  else if id.is_poll then
    .ok { st with pending_poll_kind := some id,
                  patches := st.patches ++ [.poll pc_offset id] }
  else if id.is_card_table then
    .ok { st with patches := st.patches ++ [.card_table pc_offset id] }
  else .error .invalid_mark

/-- Modelled from the spec: the missing body of `site_Call` (spec 4.2):
"resolve target, consult pending call-type state (fails with a taxonomy error
if absent/stale), delegate patching to the Relocation Engine, then clear the
pending-type slot; record a debug-info scope at this pc" when the call has
debug info. The type is absent when the slot holds `INVOKE_INVALID`, and stale
when the call is not "at a strictly greater offset" than the mark that set it
(spec 3). -/
def site_Call {D : Type} (st : CodeInstaller D) (pc_offset : Int)
    (debug_info : Option D) (target : CallTarget) (_is_direct : Bool) :
    Except SiteError (CodeInstaller D) :=
  if st._next_call_type = .INVOKE_INVALID then
    .error .no_pending_call_type
  else if ¬ (st._invoke_mark_pc < pc_offset) then
    .error .stale_call_type
  else
    .ok { st with
      patches := st.patches ++ [.call pc_offset target st._next_call_type],
      _next_call_type := .INVOKE_INVALID,
      scopes := match debug_info with
        | some d => st.scopes ++ [(pc_offset, d)]
        | none => st.scopes }

/-- Modelled from the spec: the missing body of `site_Safepoint` (spec 4.2):
a scope is recorded at the site's pc. -/
def site_Safepoint {D : Type} (st : CodeInstaller D) (pc_offset : Int) (debug_info : D) :
    Except SiteError (CodeInstaller D) :=
  .ok { st with scopes := st.scopes ++ [(pc_offset, debug_info)] }

/-- Modelled from the spec: the missing body of `site_Infopoint` (spec 4.2):
a scope is recorded at the site's pc. -/
def site_Infopoint {D : Type} (st : CodeInstaller D) (pc_offset : Int) (debug_info : D)
    (_kind : Nat) : Except SiteError (CodeInstaller D) :=
  .ok { st with scopes := st.scopes ++ [(pc_offset, debug_info)] }

/-- Modelled from the spec: the missing body of `site_DataPatch` (spec 4.2 and
8): the referenced constant is patched; a data-section offset must lie before
the end of the data section. -/
def site_DataPatch {D : Type} (code : CompiledCodeDescriptor D) (st : CodeInstaller D)
    (pc_offset : Int) (reference : Reference) : Except SiteError (CodeInstaller D) :=
  match reference with
  | .data_section offset =>
    if 0 ≤ offset ∧ offset < (code.data_section.length : Int) then
      .ok { st with patches := st.patches ++ [.data pc_offset reference] }
    else .error .data_patch_out_of_bounds
  | _ => .ok { st with patches := st.patches ++ [.data pc_offset reference] }

/-- Modelled from the spec: the missing body of `site_ExceptionHandler` (spec
4.2): the pair is appended to the exception table, duplicates included. -/
def site_ExceptionHandler {D : Type} (st : CodeInstaller D) (pc_offset : Int)
    (handler_pc : Int) : Except SiteError (CodeInstaller D) :=
  .ok { st with _exception_handler_table :=
          st._exception_handler_table ++ [(pc_offset, handler_pc)] }

/-- The `pc_offset` every site carries (spec 3). -/
def Site.pc_offset {D : Type} : Site D → Int
  | .Safepoint pc _ => pc
  | .Infopoint pc _ _ => pc
  | .Call pc _ _ _ => pc
  | .DataPatch pc _ => pc
  | .Mark pc _ => pc
  | .ExceptionHandler pc _ => pc

/-- Modelled from the spec: whether a site at `pc_offset` is out of order
after a site at `prev` (none before the first site): "sites are processed in
non-decreasing `pc_offset` order" (spec 3). -/
def out_of_order (prev : Option Int) (pc_offset : Int) : Bool :=
  match prev with
  | some q => decide (pc_offset < q)
  | none => false

/-- Modelled from the spec: the dispatch of one site to its handler, part of
the missing body of `initialize_buffer` (spec 4.2). -/
def process_site {D : Type} (code : CompiledCodeDescriptor D)
    (st : CodeInstaller D) : Site D → Except SiteError (CodeInstaller D)
  | .Safepoint pc d => site_Safepoint st pc d
  | .Infopoint pc d k => site_Infopoint st pc d k
  | .Call pc d t dir => site_Call st pc d t dir
  | .DataPatch pc r => site_DataPatch code st pc r
  | .Mark pc id => site_Mark st pc id
  | .ExceptionHandler pc h => site_ExceptionHandler st pc h

/-- Modelled from the spec: the site loop of the missing body of
`initialize_buffer`: sites are handled in list order; an out-of-order site,
and the first failure of a handler, abort ("any malformed or out-of-order site
[...] aborts installation immediately", spec 4.2). `prev` is the offset of the
site handled before. -/
def process_sites {D : Type} (code : CompiledCodeDescriptor D) :
    Option Int → CodeInstaller D → List (Site D) → Except SiteError (CodeInstaller D)
  | _, st, [] => .ok st
  | prev, st, site :: rest =>
    if out_of_order prev site.pc_offset then .error .out_of_order_site
    else
      match process_site code st site with
      | .ok st1 => process_sites code (some site.pc_offset) st1 rest
      | .error e => .error e

/-- Modelled from the spec: the missing body of `initialize_buffer`, the site
loop over all sites of the compiled code, from the installer state `self`. -/
def initialize_buffer {D : Type} (self : CodeInstaller D) (code : CompiledCodeDescriptor D) :
    Except SiteError (CodeInstaller D) :=
  process_sites code none self code.sites

/-- Modelled from the spec: the code object the finalizer registers (spec 4.6
and 6): the patched buffer with its entry points and side tables. -/
structure InstalledCode (D : Type) where
  code : List Nat
  entry_points : List (MarkId × Int)
  patches : List Patch
  scopes : List (Int × D)
  exception_handler_table : List (Int × Int)

/-- What `install` reports: the result code, the site error behind a failure,
and the code cache afterwards. -/
structure InstallReport (D : Type) where
  result : CodeInstallResult
  error : Option SiteError
  code_cache : List (InstalledCode D)

/-- Modelled from the spec: the result code of a site error; malformed input
gives `bailout` (spec 7 (a)). -/
def SiteError.result : SiteError → CodeInstallResult
  | _ => .bailout

/-- Modelled from the spec: the missing body of `install`, restricted to site
resolution and registration: on a site error nothing is registered ("partially
built side tables are discarded, never surfaced", spec 4.2; "on any failure no
partial artifact remains installed", spec 4.6), otherwise the code object is
added to the code cache. Dependencies and code-cache exhaustion are not
modelled. -/
def install {D : Type} (self : CodeInstaller D) (code : CompiledCodeDescriptor D)
    (code_cache : List (InstalledCode D)) : InstallReport D :=
  match initialize_buffer self code with
  | .error e => { result := e.result, error := some e, code_cache := code_cache }
  | .ok st =>
    { result := .ok, error := none,
      code_cache := code_cache ++
        [{ code := code.code, entry_points := st._offsets, patches := st.patches,
           scopes := st.scopes, exception_handler_table := st._exception_handler_table }] }

/-- The scenario of spec 8: "one `Mark(INVOKESTATIC)` at offset 0 followed by
one `Call` at offset 4 targeting method M" (here method 7). -/
def scenario_invokestatic : CompiledCodeDescriptor Nat :=
  { code := [232, 0, 0, 0, 0, 232, 0, 0, 0, 0], data_section := [],
    sites := [.Mark 0 .INVOKESTATIC, .Call 4 none (.direct_method 7) true],
    total_frame_size := 16, parameter_count := 0 }

/-- Modelled from the spec: a value on the compiler's side, as found in the
slots of a debug info and in the fields of a virtual object; its Java-side
declaration is missing. A virtual object is referred to by its identity. -/
inductive SourceValue (n : Nat) where
  | Illegal
  | ConstantInt (v : Int)
  | ConstantOop (ref : Nat)
  | ConstantMetaspace (ref : Nat)
  | Location (register_or_stack_slot : Int) (type : Nat)
  | VirtualObject (id : Fin n)
  deriving DecidableEq, Repr

/-- Modelled from the spec: the `ScopeValue` variant of spec 3 (HotSpot's
class, declared elsewhere). A `VirtualObjectReference` is an index into the
flattener's table. -/
inductive ScopeValue where
  | Illegal
  | ConstantInt (v : Int)
  | ConstantOop (ref : Nat)
  | ConstantMetaspace (ref : Nat)
  | Location (register_or_stack_slot : Int) (type : Nat)
  | VirtualObjectReference (index : Nat)
  deriving DecidableEq, Repr

/-- Modelled from the spec: a source `VirtualObject` (spec 3), "a class/array
descriptor plus a list of field" values; its Java-side declaration is
missing. -/
structure VirtualObject (n : Nat) where
  klass : Nat
  fields : List (SourceValue n)
  deriving DecidableEq, Repr

/-- Modelled from the spec: an entry of the flattener's table (HotSpot's
`ObjectValue`, declared elsewhere): the descriptor and the field values. -/
structure ObjectValue where
  klass : Nat
  field_values : List ScopeValue
  deriving DecidableEq, Repr

/-- Modelled from the spec: `DebugInfo` (spec 3), "method + bytecode-index
position, optional full frame snapshot (locals, expression-stack slots,
locked-monitor list)", with the source virtual objects its values refer to;
its Java-side declaration is missing. -/
structure DebugInfo (n : Nat) where
  method : Nat
  bci : Int
  locals : List (SourceValue n)
  stack : List (SourceValue n)
  monitors : List (SourceValue n)
  objects : Fin n → VirtualObject n

/-- The roots of a debug info: the values of its frame snapshot. -/
def DebugInfo.roots {n : Nat} (di : DebugInfo n) : List (SourceValue n) :=
  di.locals ++ di.stack ++ di.monitors

/-- The source virtual objects of a debug info: those reachable from its
roots through fields. -/
inductive Reachable {n : Nat} (di : DebugInfo n) : Fin n → Prop where
  | root (o : Fin n) : SourceValue.VirtualObject o ∈ di.roots → Reachable di o
  | field (a b : Fin n) : Reachable di a →
      SourceValue.VirtualObject b ∈ (di.objects a).fields → Reachable di b

/-- Modelled from the spec: one visit of the first pass of the missing body of
`record_virtual_objects` (spec 4.5). `visited` is the visited set, kept in
order of discovery; a source object not yet in it is appended, so that its
index is "the list position at which [it was] first discovered", and its
fields are visited in turn. The recursion is bounded by `fuel`. -/
def discover {n : Nat} (objects : Fin n → VirtualObject n) :
    Nat → List (Fin n) → SourceValue n → List (Fin n)
  | 0, visited, _ => visited
  | fuel + 1, visited, .VirtualObject o =>
    if o ∈ visited then visited
    else (objects o).fields.foldl (discover objects fuel) (visited ++ [o])
  | _ + 1, visited, _ => visited

/-- Modelled from the spec: the first pass of the missing body of
`record_virtual_objects` (spec 4.5): "allocates an index for every distinct
virtual object reachable from the debug-info roots". The result lists the
source objects by index. No visit can nest deeper than the number of source
objects, so `n + 1` is fuel enough. -/
def allocate_indices {n : Nat} (di : DebugInfo n) : List (Fin n) :=
  di.roots.foldl (discover di.objects (n + 1)) []

/-- Modelled from the spec: the missing body of `get_scope_value`, as far as
the flattener needs it: a nested virtual object becomes a
`VirtualObjectReference` to its index (looked up, never allocated anew), any
other value is carried over. -/
def get_scope_value {n : Nat} (objects : List (Fin n)) : SourceValue n → ScopeValue
  | .Illegal => .Illegal
  | .ConstantInt v => .ConstantInt v
  | .ConstantOop r => .ConstantOop r
  | .ConstantMetaspace r => .ConstantMetaspace r
  | .Location l t => .Location l t
  | .VirtualObject o => .VirtualObjectReference (objects.indexOf o)

/-- Modelled from the spec: the missing body of `record_object_value`, the
second pass for one entry (spec 4.5): "fills in [the] table entry's field
values, resolving nested virtual-object fields to
`VirtualObjectReference(index)` rather than recursing". -/
def record_object_value {n : Nat} (sv : ObjectValue) (value : VirtualObject n)
    (objects : List (Fin n)) : ObjectValue :=
  { sv with field_values := value.fields.map (get_scope_value objects) }

/-- Modelled from the spec: the missing body of `record_virtual_objects` (spec
4.5): the first pass allocates the indices, the second fills in one entry per
index. -/
def record_virtual_objects {n : Nat} (di : DebugInfo n) : List ObjectValue :=
  let objects := allocate_indices di
  objects.map fun o =>
    record_object_value { klass := (di.objects o).klass, field_values := [] }
      (di.objects o) objects

/-- Two source objects referring to each other: `A` (identity 0, class 10)
has a field holding `B`, and `B` (identity 1, class 20) a field holding `A`;
the only root is `A`, held by two locals. -/
def two_cycle : DebugInfo 2 :=
  { method := 1, bci := 0,
    locals := [.VirtualObject 0, .ConstantInt 5, .VirtualObject 0],
    stack := [], monitors := [],
    objects := fun i =>
      if i = 0 then { klass := 10, fields := [.VirtualObject 1] }
      else { klass := 20, fields := [.ConstantInt 7, .VirtualObject 0] } }

/-- What a visit (or a run of visits) of `targets` achieves, from the visited
list `vis` to the visited list `r`: `r` extends `vis` and has no duplicates,
every virtual object among the targets is in `r`, every object newly in `r`
has all the virtual objects of its fields in `r`, and the new objects satisfy
every property that holds of the targets and passes along fields. -/
def VisitSpec {n : Nat} (objects : Fin n → VirtualObject n) (vis r : List (Fin n))
    (targets : List (SourceValue n)) : Prop :=
  (∃ t, r = vis ++ t)
  ∧ r.Nodup
  ∧ (∀ o, SourceValue.VirtualObject o ∈ targets → o ∈ r)
  ∧ (∀ u, u ∈ r → u ∉ vis → ∀ w, SourceValue.VirtualObject w ∈ (objects u).fields → w ∈ r)
  ∧ (∀ Q : Fin n → Prop,
      (∀ a b, Q a → SourceValue.VirtualObject b ∈ (objects a).fields → Q b) →
      (∀ o, SourceValue.VirtualObject o ∈ targets → Q o) →
      ∀ u, u ∈ r → u ∉ vis → Q u)
/-- Every enumerator is listed in `MarkId.all`. -/
theorem MarkId.mem_all (m : MarkId) : m ∈ MarkId.all := by
  cases m <;> simp [MarkId.all]

/-- C3. The numeric codes of `MarkId` are pairwise distinct; the proper marks
(all but `INVOKE_INVALID`) are sixteen and occupy exactly the codes 1..16,
split into entry points (1-5), invoke kinds (6-10), poll points (11-14) and
card-table marks (15-16); and `INVOKE_INVALID` has code -1, which no proper
mark has. -/
theorem MarkId_codes_partition :
    Function.Injective MarkId.code
    ∧ (∀ c : Int, (∃ m, m ≠ MarkId.INVOKE_INVALID ∧ m.code = c) ↔ (1 ≤ c ∧ c ≤ 16))
    ∧ (∀ m : MarkId, m ∈ MarkId.all) ∧ MarkId.all.Nodup
    ∧ MarkId.all.map MarkId.code
        = [1, 2, 3, 4, 5, 6, 7, 8, 9, 10, 11, 12, 13, 14, 15, 16, -1]
    ∧ (MarkId.all.filter (fun m => decide (m ≠ MarkId.INVOKE_INVALID))).length = 16
    ∧ (∀ m : MarkId, m.is_entry_point = true ↔ (1 ≤ m.code ∧ m.code ≤ 5))
    ∧ (∀ m : MarkId, m.is_invoke_kind = true ↔ (6 ≤ m.code ∧ m.code ≤ 10))
    ∧ (∀ m : MarkId, m.is_poll = true ↔ (11 ≤ m.code ∧ m.code ≤ 14))
    ∧ (∀ m : MarkId, m.is_card_table = true ↔ (15 ≤ m.code ∧ m.code ≤ 16))
    ∧ MarkId.INVOKE_INVALID.code = -1
    ∧ (∀ m : MarkId, m ≠ MarkId.INVOKE_INVALID → m.code ≠ MarkId.INVOKE_INVALID.code) := by
  refine ⟨?_, ?_, MarkId.mem_all, by decide, rfl, by decide, ?_, ?_, ?_, ?_, rfl, ?_⟩
  · intro a b h
    cases a <;> cases b <;> first | rfl | (exact absurd h (by decide))
  · intro c
    constructor
    · rintro ⟨m, hm, rfl⟩
      cases m <;> first | (exact absurd rfl hm) | (constructor <;> decide)
    · rintro ⟨h1, h2⟩
      have hc : c = 1 ∨ c = 2 ∨ c = 3 ∨ c = 4 ∨ c = 5 ∨ c = 6 ∨ c = 7 ∨ c = 8 ∨ c = 9
          ∨ c = 10 ∨ c = 11 ∨ c = 12 ∨ c = 13 ∨ c = 14 ∨ c = 15 ∨ c = 16 := by omega
      rcases hc with h | h | h | h | h | h | h | h | h | h | h | h | h | h | h | h <;> subst h
      · exact ⟨.VERIFIED_ENTRY, by decide, rfl⟩
      · exact ⟨.UNVERIFIED_ENTRY, by decide, rfl⟩
      · exact ⟨.OSR_ENTRY, by decide, rfl⟩
      · exact ⟨.EXCEPTION_HANDLER_ENTRY, by decide, rfl⟩
      · exact ⟨.DEOPT_HANDLER_ENTRY, by decide, rfl⟩
      · exact ⟨.INVOKEINTERFACE, by decide, rfl⟩
      · exact ⟨.INVOKEVIRTUAL, by decide, rfl⟩
      · exact ⟨.INVOKESTATIC, by decide, rfl⟩
      · exact ⟨.INVOKESPECIAL, by decide, rfl⟩
      · exact ⟨.INLINE_INVOKE, by decide, rfl⟩
      · exact ⟨.POLL_NEAR, by decide, rfl⟩
      · exact ⟨.POLL_RETURN_NEAR, by decide, rfl⟩
      · exact ⟨.POLL_FAR, by decide, rfl⟩
      · exact ⟨.POLL_RETURN_FAR, by decide, rfl⟩
      · exact ⟨.CARD_TABLE_ADDRESS, by decide, rfl⟩
      · exact ⟨.CARD_TABLE_SHIFT, by decide, rfl⟩
  · intro m; cases m <;> decide
  · intro m; cases m <;> decide
  · intro m; cases m <;> decide
  · intro m; cases m <;> decide
  · intro m hm
    cases m <;> first | (exact absurd rfl hm) | decide

/-! ## Theorems about `GraalCompiler` -/

/-- A pointer below `2^63` is passed to Java unchanged. -/
theorem jlong_of_address_small (p : Nat) (h : p < 2 ^ 63) : jlong_of_address p = (p : Int) := by
  unfold jlong_of_address
  have h1 : p % 2 ^ 64 = p := Nat.mod_eq_of_lt (by omega)
  rw [h1, if_pos h]

/-- The state carried by a sequence is the state of the continuation when the
first part returned, and the state of the first part otherwise. -/
theorem Outcome.andThen_state {α : Type} (o : Outcome α) (k : α → Outcome α) :
    (o.andThen k).state = match o with
      | .returns s => (k s).state
      | .vm_abort s => s := by
  cases o <;> rfl

/-- An upcall leaves the flags, the compiler state, the `set_state` log and
`_bootstrapping` alone, and logs exactly itself. -/
theorem java_upcall_frame {W St : Type} (hs : HotSpot W St) (c : JavaCall) (s : VM W St) :
    (java_upcall hs c s).state.flags = s.flags
    ∧ (java_upcall hs c s).state._compiler_state = s._compiler_state
    ∧ (java_upcall hs c s).state.set_state_log = s.set_state_log
    ∧ (java_upcall hs c s).state._bootstrapping = s._bootstrapping
    ∧ (java_upcall hs c s).state.upcalls = s.upcalls ++ [(c, s.flags)]
    ∧ (java_upcall hs c s).state.world = (hs.java_call c s.flags s.world).1 := by
  unfold java_upcall
  by_cases h : (hs.java_call c s.flags s.world).2 = true <;> simp [h, Outcome.state]

/-- The function `bootstrap` leaves the flags, the compiler state and the
`set_state` log alone and logs one upcall of `CompilationQueue.bootstrap`. -/
theorem bootstrap_frame {W St : Type} (hs : HotSpot W St) (s : VM W St) :
    (bootstrap hs s).state.flags = s.flags
    ∧ (bootstrap hs s).state._compiler_state = s._compiler_state
    ∧ (bootstrap hs s).state.set_state_log = s.set_state_log
    ∧ (bootstrap hs s).state.upcalls
        = s.upcalls ++ [(⟨.CompilationQueue, .bootstrap, []⟩, s.flags)] := by
  obtain ⟨h1, h2, h3, -, h5, -⟩ := java_upcall_frame hs ⟨.CompilationQueue, .bootstrap, []⟩
    { s with world := hs.load_required_class .CompilationQueue s.world }
  exact ⟨h1, h2, h3, h5⟩

/-- The function `start_compilation_queue` leaves the flags, the compiler
state, the `set_state` log and `_bootstrapping` alone. -/
theorem start_compilation_queue_frame {W St : Type} (hs : HotSpot W St) (s : VM W St) :
    (start_compilation_queue hs s).state.flags = s.flags
    ∧ (start_compilation_queue hs s).state._compiler_state = s._compiler_state
    ∧ (start_compilation_queue hs s).state.set_state_log = s.set_state_log
    ∧ (start_compilation_queue hs s).state._bootstrapping = s._bootstrapping := by
  obtain ⟨h1, h2, h3, h4, -, -⟩ := java_upcall_frame hs
    ⟨.CompilationQueue, .class_initializer, []⟩
    { s with world := hs.load_required_class .CompilationQueue s.world }
  exact ⟨h1, h2, h3, h4⟩

/-- The function `compile_the_world` leaves the compiler state and the
`set_state` log alone. -/
theorem compile_the_world_frame {W St : Type} (hs : HotSpot W St) (s : VM W St) :
    (compile_the_world hs s).state._compiler_state = s._compiler_state
    ∧ (compile_the_world hs s).state.set_state_log = s.set_state_log := by
  unfold compile_the_world
  simp only []
  obtain ⟨-, h2, h3, -, -, -⟩ := java_upcall_frame hs
    ⟨.HotSpotGraalRuntime, .compileTheWorld,
      [.push_oop (hs.get_HotSpotGraalRuntime
        (hs.load_required_class .HotSpotGraalRuntime s.world))]⟩
    { s with flags := { s.flags with CompileTheWorld := false },
             world := hs.load_required_class .HotSpotGraalRuntime s.world }
  exact ⟨h2, h3⟩

/-- The last part of `initialize` leaves the compiler state and the
`set_state` log alone. -/
theorem initialize_compile_the_world_frame {W St : Type} (cfg : BuildConfig)
    (hs : HotSpot W St) (s : VM W St) :
    (initialize_compile_the_world cfg hs s).state._compiler_state = s._compiler_state
    ∧ (initialize_compile_the_world cfg hs s).state.set_state_log = s.set_state_log := by
  unfold initialize_compile_the_world
  split
  · exact compile_the_world_frame hs s
  · exact ⟨rfl, rfl⟩

/-- Restoring the three guarded flags over flags that differ from `f` at most
in the guarded ones gives `f` back. -/
theorem FlagSetting_restore (f g : Flags)
    (h1 : g.UseCompiler = f.UseCompiler)
    (h2 : g.UseGraalCompilationQueue = f.UseGraalCompilationQueue)
    (h3 : g.BootstrapGraal = f.BootstrapGraal)
    (h4 : g.BootstrapGraal_IS_DEFAULT = f.BootstrapGraal_IS_DEFAULT)
    (h5 : g.TieredCompilation = f.TieredCompilation) :
    (FlagSetting.ctor .UseInterpreter true f).1.dtor
      ((FlagSetting.ctor .BackgroundCompilation true
          (FlagSetting.ctor .UseInterpreter true f).2).1.dtor
        ((FlagSetting.ctor .CompileTheWorld false
          (FlagSetting.ctor .BackgroundCompilation true
            (FlagSetting.ctor .UseInterpreter true f).2).2).1.dtor g)) = f := by
  cases f; cases g
  simp only [FlagSetting.ctor, FlagSetting.dtor, FlagRef.get, FlagRef.set] at *
  simp [h1, h2, h3, h4, h5]

/-- The product-build variant of `FlagSetting_restore`: two guards, and
`CompileTheWorld` untouched throughout. -/
theorem FlagSetting_restore_product (f g : Flags)
    (h1 : g.UseCompiler = f.UseCompiler)
    (h2 : g.UseGraalCompilationQueue = f.UseGraalCompilationQueue)
    (h3 : g.BootstrapGraal = f.BootstrapGraal)
    (h4 : g.BootstrapGraal_IS_DEFAULT = f.BootstrapGraal_IS_DEFAULT)
    (h5 : g.TieredCompilation = f.TieredCompilation)
    (h6 : g.CompileTheWorld = f.CompileTheWorld) :
    (FlagSetting.ctor .UseInterpreter true f).1.dtor
      ((FlagSetting.ctor .BackgroundCompilation true
          (FlagSetting.ctor .UseInterpreter true f).2).1.dtor g) = f := by
  cases f; cases g
  simp only [FlagSetting.ctor, FlagSetting.dtor, FlagRef.get, FlagRef.set] at *
  simp [h1, h2, h3, h4, h5, h6]

/-- The flags in force while `bootstrap()` runs inside the bootstrap block of
`initialize`, given the flags `f` on entry to the block. -/
theorem bootstrap_block_flags_eq (cfg : BuildConfig) (f : Flags) :
    (if cfg.PRODUCT then
        (FlagSetting.ctor .BackgroundCompilation true
          (FlagSetting.ctor .UseInterpreter true f).2).2
      else
        (FlagSetting.ctor .CompileTheWorld false
          (FlagSetting.ctor .BackgroundCompilation true
            (FlagSetting.ctor .UseInterpreter true f).2).2).2)
      = { f with UseInterpreter := true, BackgroundCompilation := true,
                 CompileTheWorld := if cfg.PRODUCT then f.CompileTheWorld else false } := by
  cases f
  cases h : cfg.PRODUCT <;> simp [FlagSetting.ctor, FlagRef.set]

/-- The bootstrap block leaves the compiler state and the `set_state` log
alone. -/
theorem initialize_bootstrap_block_frame {W St : Type} (cfg : BuildConfig)
    (hs : HotSpot W St) (s : VM W St) :
    (initialize_bootstrap_block cfg hs s).state._compiler_state = s._compiler_state
    ∧ (initialize_bootstrap_block cfg hs s).state.set_state_log = s.set_state_log := by
  unfold initialize_bootstrap_block
  split
  · simp only []
    split
    · have hb := bootstrap_frame hs { s with flags := (FlagSetting.ctor .BackgroundCompilation true
          (FlagSetting.ctor .UseInterpreter true s.flags).2).2 }
      split
      · rename_i t ht; rw [ht] at hb; exact ⟨hb.2.1, hb.2.2.1⟩
      · rename_i t ht; rw [ht] at hb; exact ⟨hb.2.1, hb.2.2.1⟩
    · have hb := bootstrap_frame hs { s with flags := (FlagSetting.ctor .CompileTheWorld false
          (FlagSetting.ctor .BackgroundCompilation true
            (FlagSetting.ctor .UseInterpreter true s.flags).2).2).2 }
      split
      · rename_i t ht; rw [ht] at hb; exact ⟨hb.2.1, hb.2.2.1⟩
      · rename_i t ht; rw [ht] at hb; exact ⟨hb.2.1, hb.2.2.1⟩
  · exact ⟨rfl, rfl⟩

/-- The tail of `initialize_startup` (starting the compilation queue and
`completed_vm_startup`) leaves flags, compiler state, `set_state` log and
`_bootstrapping` alone. -/
theorem initialize_startup_tail {W St : Type} (hs : HotSpot W St) (s3 : VM W St) :
    ((start_compilation_queue hs s3).andThen fun s4 =>
        .returns { s4 with world := hs.completed_vm_startup s4.world }).state.flags = s3.flags
    ∧ ((start_compilation_queue hs s3).andThen fun s4 =>
        .returns { s4 with world := hs.completed_vm_startup s4.world }).state._compiler_state
          = s3._compiler_state
    ∧ ((start_compilation_queue hs s3).andThen fun s4 =>
        .returns { s4 with world := hs.completed_vm_startup s4.world }).state.set_state_log
          = s3.set_state_log
    ∧ ((start_compilation_queue hs s3).andThen fun s4 =>
        .returns { s4 with world := hs.completed_vm_startup s4.world }).state._bootstrapping
          = s3._bootstrapping := by
  have hq := start_compilation_queue_frame hs s3
  cases h : start_compilation_queue hs s3 with
  | returns t => rw [h] at hq; exact hq
  | vm_abort t => rw [h] at hq; exact hq

/-- What `initialize` has done when it reaches the bootstrap block (or was
aborted on the way): flags unchanged, `_bootstrapping` computed, and the state
flag updated through `set_state` exactly when `UseGraalCompilationQueue` is
off. -/
theorem initialize_startup_spec {W St : Type} (hs : HotSpot W St) (s : VM W St) :
    (initialize_startup hs s).state.flags = s.flags
    ∧ (initialize_startup hs s).state._bootstrapping
        = (s.flags.UseGraalCompilationQueue &&
            (if s.flags.BootstrapGraal_IS_DEFAULT then !s.flags.TieredCompilation
             else s.flags.BootstrapGraal))
    ∧ (s.flags.UseGraalCompilationQueue = true →
        (initialize_startup hs s).state._compiler_state = s._compiler_state
        ∧ (initialize_startup hs s).state.set_state_log = s.set_state_log)
    ∧ (s.flags.UseGraalCompilationQueue = false →
        (initialize_startup hs s).state._compiler_state
          = (if (hs.initialize_buffer_blob s.world).1 = none then hs.failed
             else hs.initialized)
        ∧ (initialize_startup hs s).state.set_state_log
          = s.set_state_log ++
              [if (hs.initialize_buffer_blob s.world).1 = none then hs.failed
               else hs.initialized]) := by
  unfold initialize_startup
  simp only []
  rw [(initialize_startup_tail hs _).1, (initialize_startup_tail hs _).2.1,
    (initialize_startup_tail hs _).2.2.1, (initialize_startup_tail hs _).2.2.2]
  cases hq : s.flags.UseGraalCompilationQueue <;>
    by_cases hb : (hs.initialize_buffer_blob s.world).1 = none <;>
    simp [hq, hb, set_state]

/-- The state flag and the `set_state` log after `initialize`, when
initialization is performed, are those left by `initialize_startup`. -/
theorem initialize_state_after_startup {W St : Type} (cfg : BuildConfig) (hs : HotSpot W St)
    (s : VM W St) :
    (((initialize_startup hs s).andThen (initialize_bootstrap_block cfg hs)).andThen
        (initialize_compile_the_world cfg hs)).state._compiler_state
      = (initialize_startup hs s).state._compiler_state
    ∧ (((initialize_startup hs s).andThen (initialize_bootstrap_block cfg hs)).andThen
        (initialize_compile_the_world cfg hs)).state.set_state_log
      = (initialize_startup hs s).state.set_state_log := by
  cases h1 : initialize_startup hs s with
  | vm_abort t => exact ⟨rfl, rfl⟩
  | returns t =>
    simp only [Outcome.andThen, Outcome.state]
    have hb := initialize_bootstrap_block_frame cfg hs t
    cases h2 : initialize_bootstrap_block cfg hs t with
    | vm_abort u => rw [h2] at hb; exact hb
    | returns u =>
      rw [h2] at hb
      simp only [Outcome.state] at hb ⊢
      have hc := initialize_compile_the_world_frame cfg hs u
      exact ⟨hc.1.trans hb.1, hc.2.trans hb.2⟩

/-- C4. No OSR compilation during bootstrap: when `_bootstrapping` is set and
`entry_bci` is not `InvocationEntryBci`, `compile_method` returns with the VM
(and so the upcall log) as it was; in every other case it makes exactly one
upcall, `CompilationTask.compileMetaspaceMethod`, with the arguments method
address (long), `entry_bci` (int), task address (long), `blocking` (int). -/
theorem compile_method_upcall {W St : Type} (hs : HotSpot W St) (method : Nat)
    (entry_bci : Int) (task : Nat) (blocking : Fin 256) (s : VM W St) :
    ((s._bootstrapping = true ∧ entry_bci ≠ hs.InvocationEntryBci) →
        compile_method hs method entry_bci task blocking s = .returns s)
    ∧ (¬ (s._bootstrapping = true ∧ entry_bci ≠ hs.InvocationEntryBci) →
        (compile_method hs method entry_bci task blocking s).state.upcalls
          = s.upcalls ++
            [(⟨.CompilationTask, .compileMetaspaceMethod,
                [.push_long (jlong_of_address method), .push_int entry_bci,
                 .push_long (jlong_of_address task), .push_int (blocking.val : Int)]⟩,
              s.flags)]) := by
  constructor
  · rintro ⟨hb, ho⟩
    simp [compile_method, hb, ho]
  · intro h
    have hc : (s._bootstrapping && decide (entry_bci ≠ hs.InvocationEntryBci)) = false := by
      by_cases hb : s._bootstrapping = true
      · have : entry_bci = hs.InvocationEntryBci := by
          by_contra hne; exact h ⟨hb, hne⟩
        simp [this]
      · simp [hb]
    unfold compile_method
    simp only [hc]
    exact (java_upcall_frame hs _ s).2.2.2.2.1

/-- C5 (as amended). When initialization is performed, `initialize` updates
the state flag through `set_state` for the native queue only: with
`UseGraalCompilationQueue` off the state becomes `failed` if the buffer blob is
NULL and `initialized` otherwise (one `set_state` call); with it on,
`set_state` is not called and the state is the one `should_perform_init()`
left, whatever the buffer blob is, hence the one on entry when
`should_perform_init()` did not change it. The state is the one `initialize`
ends with, whether it returns or a pending exception aborts the VM. -/
theorem initialize_updates_state_for_native_queue_only {W St : Type} (cfg : BuildConfig)
    (hs : HotSpot W St) (s : VM W St)
    (hC : cfg.COMPILERGRAAL = true) (hU : s.flags.UseCompiler = true)
    (hI : (hs.should_perform_init s._compiler_state s.world).1 = true) :
    (s.flags.UseGraalCompilationQueue = false →
      ( GraalCompiler_initialize cfg hs s).state._compiler_state
        = (if (hs.initialize_buffer_blob
                (hs.should_perform_init s._compiler_state s.world).2.2).1 = none
           then hs.failed else hs.initialized)
      ∧ ( GraalCompiler_initialize cfg hs s).state.set_state_log
        = s.set_state_log ++
          [if (hs.initialize_buffer_blob
                (hs.should_perform_init s._compiler_state s.world).2.2).1 = none
           then hs.failed else hs.initialized])
    ∧ (s.flags.UseGraalCompilationQueue = true →
      ( GraalCompiler_initialize cfg hs s).state._compiler_state
        = (hs.should_perform_init s._compiler_state s.world).2.1
      ∧ ( GraalCompiler_initialize cfg hs s).state.set_state_log = s.set_state_log)
    ∧ (s.flags.UseGraalCompilationQueue = true →
      (hs.should_perform_init s._compiler_state s.world).2.1 = s._compiler_state →
      ( GraalCompiler_initialize cfg hs s).state._compiler_state = s._compiler_state) := by
  have hinit : GraalCompiler_initialize cfg hs s
      = ((initialize_startup hs
            { s with
              _compiler_state := (hs.should_perform_init s._compiler_state s.world).2.1,
              world := (hs.should_perform_init s._compiler_state s.world).2.2 }).andThen
          (initialize_bootstrap_block cfg hs)).andThen (initialize_compile_the_world cfg hs) := by
    simp [ GraalCompiler_initialize, hC, hU, hI]
  rw [hinit]
  obtain ⟨e1, e2⟩ := initialize_state_after_startup cfg hs
    { s with
      _compiler_state := (hs.should_perform_init s._compiler_state s.world).2.1,
      world := (hs.should_perform_init s._compiler_state s.world).2.2 }
  obtain ⟨-, -, hq, hn⟩ := initialize_startup_spec hs
    { s with
      _compiler_state := (hs.should_perform_init s._compiler_state s.world).2.1,
      world := (hs.should_perform_init s._compiler_state s.world).2.2 }
  rw [e1, e2]
  exact ⟨fun h => hn h, fun h => hq h, fun h hk => (hq h).1.trans hk⟩

/-- When initialization is not performed, `set_state` is not called: with
`UseCompiler` off nothing changes, and when `should_perform_init()` answers
false the state flag is the one it left. -/
theorem initialize_not_performed {W St : Type} (cfg : BuildConfig)
    (hs : HotSpot W St) (s : VM W St) :
    (cfg.COMPILERGRAAL = false → GraalCompiler_initialize cfg hs s = .returns s)
    ∧ (s.flags.UseCompiler = false → GraalCompiler_initialize cfg hs s = .returns s)
    ∧ (cfg.COMPILERGRAAL = true → s.flags.UseCompiler = true →
        (hs.should_perform_init s._compiler_state s.world).1 = false →
        ( GraalCompiler_initialize cfg hs s).state.set_state_log = s.set_state_log
        ∧ ( GraalCompiler_initialize cfg hs s).state._compiler_state
            = (hs.should_perform_init s._compiler_state s.world).2.1) := by
  refine ⟨?_, ?_, ?_⟩
  · intro h; simp [ GraalCompiler_initialize, h]
  · intro h; cases hc : cfg.COMPILERGRAAL <;> simp [ GraalCompiler_initialize, h, hc]
  · intro hC hU hI
    simp [ GraalCompiler_initialize, hC, hU, hI, Outcome.state]

/-- The bootstrap block, entered with `_bootstrapping` set: `bootstrap()` is
run on the state whose flags have `UseInterpreter` and `BackgroundCompilation`
on (and `CompileTheWorld` off in non-product builds), and when it returns the
flags are those of entry to the block. -/
theorem initialize_bootstrap_block_eq {W St : Type} (cfg : BuildConfig) (hs : HotSpot W St)
    (s : VM W St) (hB : s._bootstrapping = true) :
    initialize_bootstrap_block cfg hs s
      = match (bootstrap hs { s with flags :=
            { s.flags with UseInterpreter := true, BackgroundCompilation := true,
                           CompileTheWorld :=
                             (if cfg.PRODUCT then s.flags.CompileTheWorld else false) } }) with
        | .returns t => .returns { t with flags := s.flags }
        | .vm_abort t => .vm_abort t := by
  unfold initialize_bootstrap_block
  rw [if_pos hB]
  simp only []
  have hF := bootstrap_block_flags_eq cfg s.flags
  cases hP : cfg.PRODUCT
  · simp only [hP, Bool.false_eq_true, if_false] at hF ⊢
    rw [hF]
    have hb := bootstrap_frame hs { s with flags :=
      { s.flags with UseInterpreter := true, BackgroundCompilation := true,
                     CompileTheWorld := false } }
    cases h : bootstrap hs { s with flags :=
      { s.flags with UseInterpreter := true, BackgroundCompilation := true,
                     CompileTheWorld := false } } with
    | vm_abort t => rfl
    | returns t =>
      rw [h] at hb
      simp only [Outcome.state] at hb
      simp only [hb.1]
      rw [← hF]
      exact congrArg (fun f => Outcome.returns { t with flags := f })
        (FlagSetting_restore s.flags _ rfl rfl rfl rfl rfl)
  · simp only [hP, if_true] at hF ⊢
    rw [hF]
    have hb := bootstrap_frame hs { s with flags :=
      { s.flags with UseInterpreter := true, BackgroundCompilation := true,
                     CompileTheWorld := s.flags.CompileTheWorld } }
    cases h : bootstrap hs { s with flags :=
      { s.flags with UseInterpreter := true, BackgroundCompilation := true,
                     CompileTheWorld := s.flags.CompileTheWorld } } with
    | vm_abort t => rfl
    | returns t =>
      rw [h] at hb
      simp only [Outcome.state] at hb
      simp only [hb.1]
      rw [← hF]
      exact congrArg (fun f => Outcome.returns { t with flags := f })
        (FlagSetting_restore_product s.flags _ rfl rfl rfl rfl rfl rfl)

/-- C6. When `initialize` bootstraps (initialization is performed, the
compilation queue has started and `_bootstrapping` is set, `s1` being the state
in which the bootstrap block is entered), `bootstrap()` runs with
`UseInterpreter` and `BackgroundCompilation` on and, in non-product builds,
`CompileTheWorld` off, whatever these flags were on entry; and once the block
is left all flags have the values they had on entry to `initialize`. -/
theorem initialize_bootstrap_flags {W St : Type} (cfg : BuildConfig) (hs : HotSpot W St)
    (s s1 : VM W St)
    (hC : cfg.COMPILERGRAAL = true) (hU : s.flags.UseCompiler = true)
    (hI : (hs.should_perform_init s._compiler_state s.world).1 = true)
    (h1 : initialize_startup hs
            { s with
              _compiler_state := (hs.should_perform_init s._compiler_state s.world).2.1,
              world := (hs.should_perform_init s._compiler_state s.world).2.2 }
          = .returns s1)
    (hB : s1._bootstrapping = true) :
    GraalCompiler_initialize cfg hs s
        = (initialize_bootstrap_block cfg hs s1).andThen (initialize_compile_the_world cfg hs)
    ∧ (∃ F : Flags,
        F.UseInterpreter = true ∧ F.BackgroundCompilation = true
        ∧ (cfg.PRODUCT = false → F.CompileTheWorld = false)
        ∧ (initialize_bootstrap_block cfg hs s1
            = match bootstrap hs { s1 with flags := F } with
              | .returns t => .returns { t with flags := s.flags }
              | .vm_abort t => .vm_abort t)
        ∧ (initialize_bootstrap_block cfg hs s1).state.upcalls
            = s1.upcalls ++ [(⟨.CompilationQueue, .bootstrap, []⟩, F)]
        ∧ ((hs.java_call ⟨.CompilationQueue, .bootstrap, []⟩ F
              (hs.load_required_class .CompilationQueue s1.world)).2 = false →
            ∃ s2, initialize_bootstrap_block cfg hs s1 = .returns s2))
    ∧ (∀ s2, initialize_bootstrap_block cfg hs s1 = .returns s2 → s2.flags = s.flags) := by
  have hflags : s1.flags = s.flags := by
    have := (initialize_startup_spec hs
      { s with
        _compiler_state := (hs.should_perform_init s._compiler_state s.world).2.1,
        world := (hs.should_perform_init s._compiler_state s.world).2.2 }).1
    rw [h1] at this
    exact this
  have hblock := initialize_bootstrap_block_eq cfg hs s1 hB
  rw [hflags] at hblock
  refine ⟨?_, ⟨_, rfl, rfl, ?_, hblock, ?_, ?_⟩, ?_⟩
  · simp [ GraalCompiler_initialize, hC, hU, hI, h1, Outcome.andThen]
  · intro hP
    simp [hP]
  · rw [hblock]
    have hb := bootstrap_frame hs { s1 with flags :=
      { s.flags with UseInterpreter := true, BackgroundCompilation := true,
                     CompileTheWorld :=
                       (if cfg.PRODUCT then s.flags.CompileTheWorld else false) } }
    cases h : bootstrap hs { s1 with flags :=
      { s.flags with UseInterpreter := true, BackgroundCompilation := true,
                     CompileTheWorld :=
                       (if cfg.PRODUCT then s.flags.CompileTheWorld else false) } } with
    | returns t => rw [h] at hb; exact hb.2.2.2
    | vm_abort t => rw [h] at hb; exact hb.2.2.2
  · intro hp
    rw [hblock]
    simp only [bootstrap, java_upcall, hp]
    exact ⟨_, rfl⟩
  · intro s2 h2
    rw [hblock] at h2
    cases h : bootstrap hs { s1 with flags :=
      { s.flags with UseInterpreter := true, BackgroundCompilation := true,
                     CompileTheWorld :=
                       (if cfg.PRODUCT then s.flags.CompileTheWorld else false) } } with
    | returns t =>
      rw [h] at h2
      simp only [Outcome.returns.injEq] at h2
      rw [← h2]
    | vm_abort t =>
      rw [h] at h2
      exact absurd h2 (by simp)

/-- Witness for `initialize_updates_state_for_native_queue_only`: a
non-product build with the native queue and an allocated buffer blob; the
state becomes `initialized` through one `set_state` call. -/
theorem initialize_updates_state_for_native_queue_only_witness :
    (⟨true, false⟩ : BuildConfig).COMPILERGRAAL = true
    ∧ (example_vm example_flags_native).flags.UseCompiler = true
    ∧ (example_hotspot.should_perform_init (example_vm example_flags_native)._compiler_state
        (example_vm example_flags_native).world).1 = true
    ∧ ( GraalCompiler_initialize ⟨true, false⟩ example_hotspot
        (example_vm example_flags_native)).state._compiler_state = 2
    ∧ ( GraalCompiler_initialize ⟨true, false⟩ example_hotspot
        (example_vm example_flags_native)).state.set_state_log = [2] :=
  ⟨rfl, rfl, rfl,
    (initialize_updates_state_for_native_queue_only ⟨true, false⟩ example_hotspot
      (example_vm example_flags_native) rfl rfl rfl).1 rfl⟩

/-- Witness for `initialize_bootstrap_flags`: a non-product build that
bootstraps with `UseInterpreter` and `BackgroundCompilation` off and
`CompileTheWorld` on at entry; `bootstrap()` is called with the three flags
forced, and the block is left with the flags of entry. -/
theorem initialize_bootstrap_flags_witness :
    (⟨true, false⟩ : BuildConfig).COMPILERGRAAL = true
    ∧ (example_vm example_flags_queue).flags.UseCompiler = true
    ∧ (example_hotspot.should_perform_init (example_vm example_flags_queue)._compiler_state
        (example_vm example_flags_queue).world).1 = true
    ∧ initialize_startup example_hotspot
        { example_vm example_flags_queue with
          _compiler_state := (example_hotspot.should_perform_init
            (example_vm example_flags_queue)._compiler_state
            (example_vm example_flags_queue).world).2.1,
          world := (example_hotspot.should_perform_init
            (example_vm example_flags_queue)._compiler_state
            (example_vm example_flags_queue).world).2.2 }
        = .returns example_vm_at_block
    ∧ example_vm_at_block._bootstrapping = true
    ∧ initialize_bootstrap_block ⟨true, false⟩ example_hotspot example_vm_at_block
        = .returns { example_vm_at_block with
            world := 3,
            upcalls := example_vm_at_block.upcalls ++
              [(⟨.CompilationQueue, .bootstrap, []⟩,
                { example_flags_queue with UseInterpreter := true,
                                           BackgroundCompilation := true,
                                           CompileTheWorld := false })] }
    ∧ (∀ s2, initialize_bootstrap_block ⟨true, false⟩ example_hotspot example_vm_at_block
          = .returns s2 → s2.flags = (example_vm example_flags_queue).flags) :=
  ⟨rfl, rfl, rfl, rfl, rfl, rfl,
    (initialize_bootstrap_flags ⟨true, false⟩ example_hotspot
      (example_vm example_flags_queue) example_vm_at_block rfl rfl rfl rfl rfl).2.2⟩

/-- C5 as stated fails: with the Graal queue and the `should_perform_init` of
upstream HotSpot, initialization is performed, `set_state` is never called,
and yet the state `initialize` ends with (initializing) is not the state on
entry (uninitialized). -/
theorem initialize_state_differs_from_entry_with_graal_queue :
    (⟨true, false⟩ : BuildConfig).COMPILERGRAAL = true
    ∧ (example_vm example_flags_queue).flags.UseCompiler = true
    ∧ (example_hotspot.should_perform_init (example_vm example_flags_queue)._compiler_state
        (example_vm example_flags_queue).world).1 = true
    ∧ (example_vm example_flags_queue).flags.UseGraalCompilationQueue = true
    ∧ ( GraalCompiler_initialize ⟨true, false⟩ example_hotspot
        (example_vm example_flags_queue)).state.set_state_log = []
    ∧ (example_vm example_flags_queue)._compiler_state = 0
    ∧ ( GraalCompiler_initialize ⟨true, false⟩ example_hotspot
        (example_vm example_flags_queue)).state._compiler_state = 1
    ∧ ( GraalCompiler_initialize ⟨true, false⟩ example_hotspot
        (example_vm example_flags_queue)).state._compiler_state
      ≠ (example_vm example_flags_queue)._compiler_state :=
  ⟨rfl, rfl, rfl, rfl, rfl, rfl, rfl, by decide⟩

/-! ## Theorems about the site resolver -/

/-- The scenario of spec 8: with `Mark(INVOKESTATIC)` at offset 0 and the call
at offset 4 the call is patched under `INVOKESTATIC`, the code is installed
and the slot is empty afterwards; with the mark at the offset of the call the
call type is stale; and a site at a smaller offset than the one before it is
out of order. -/
theorem scenario_invokestatic_installs :
    install example_installer scenario_invokestatic []
      = { result := .ok, error := none,
          code_cache := [{ code := scenario_invokestatic.code, entry_points := [],
                           patches := [.call 4 (.direct_method 7) .INVOKESTATIC],
                           scopes := [], exception_handler_table := [] }] }
    ∧ (initialize_buffer example_installer scenario_invokestatic).toOption.map
        (fun st => st._next_call_type) = some .INVOKE_INVALID
    ∧ (install example_installer
        { scenario_invokestatic with
          sites := [.Mark 4 .INVOKESTATIC, .Call 4 none (.direct_method 7) true] } []).error
      = some .stale_call_type
    ∧ (install example_installer
        { scenario_invokestatic with
          sites := [.Mark 4 .INVOKESTATIC, .Call 0 none (.direct_method 7) true] } []).error
      = some .out_of_order_site := by
  exact ⟨rfl, rfl, rfl, rfl⟩

/-! ## Theorems about the object-graph flattener -/

/-- The two-cycle is flattened into two entries that refer to each other by
index. -/
theorem two_cycle_flattened :
    allocate_indices two_cycle = [0, 1]
    ∧ record_virtual_objects two_cycle
      = [{ klass := 10, field_values := [.VirtualObjectReference 1] },
         { klass := 20, field_values := [.ConstantInt 7, .VirtualObjectReference 0] }] := by
  constructor <;> decide

/-- A run of visits meets `VisitSpec` when each single visit does. -/
theorem foldl_discover_spec {n : Nat} (g : Fin n → VirtualObject n) (fuel : Nat)
    (hP : ∀ vis v, vis.Nodup → n < fuel + vis.length →
      VisitSpec g vis (discover g fuel vis v) [v]) :
    ∀ (fs : List (SourceValue n)) (vis : List (Fin n)), vis.Nodup → n < fuel + vis.length →
      VisitSpec g vis (fs.foldl (discover g fuel) vis) fs := by
  intro fs
  induction fs with
  | nil =>
    intro vis nd _
    refine ⟨⟨[], by simp⟩, nd, ?_, ?_, ?_⟩
    · intro o ho; simp at ho
    · intro u hu hnu; exact absurd hu hnu
    · intro Q _ _ u hu hnu; exact absurd hu hnu
  | cons f rest ih =>
    intro vis nd hlt
    obtain ⟨⟨t1, e1⟩, nd1, tg1, cl1, q1⟩ := hP vis f nd hlt
    have hlen : n < fuel + (discover g fuel vis f).length := by
      rw [e1, List.length_append]; omega
    obtain ⟨⟨t2, e2⟩, nd2, tg2, cl2, q2⟩ := ih (discover g fuel vis f) nd1 hlen
    have hsub : ∀ x, x ∈ discover g fuel vis f →
        x ∈ List.foldl (discover g fuel) (discover g fuel vis f) rest := by
      intro x hx; rw [e2]; exact List.mem_append_left _ hx
    simp only [List.foldl_cons]
    refine ⟨⟨t1 ++ t2, ?_⟩, nd2, ?_, ?_, ?_⟩
    · rw [e2, ← List.append_assoc, ← e1]
    · intro o ho
      rcases List.mem_cons.mp ho with h | h
      · exact hsub o (tg1 o (by rw [← h]; exact List.mem_singleton_self _))
      · exact tg2 o h
    · intro u hu hnu w hw
      by_cases hu1 : u ∈ discover g fuel vis f
      · exact hsub w (cl1 u hu1 hnu w hw)
      · exact cl2 u hu hu1 w hw
    · intro Q hQ hT u hu hnu
      by_cases hu1 : u ∈ discover g fuel vis f
      · refine q1 Q hQ ?_ u hu1 hnu
        intro o ho
        rw [List.mem_singleton] at ho
        exact hT o (by rw [ho]; exact List.mem_cons_self _ _)
      · exact q2 Q hQ (fun o ho => hT o (List.mem_cons_of_mem _ ho)) u hu hu1

/-- A single visit meets `VisitSpec` whenever the fuel exceeds the number of
source objects not yet visited; in particular the fuel does not run out. -/
theorem discover_spec {n : Nat} (g : Fin n → VirtualObject n) :
    ∀ (fuel : Nat) (vis : List (Fin n)) (v : SourceValue n), vis.Nodup →
      n < fuel + vis.length → VisitSpec g vis (discover g fuel vis v) [v] := by
  intro fuel
  induction fuel with
  | zero =>
    intro vis v nd hlt
    have h := nd.length_le_card
    rw [Fintype.card_fin] at h
    omega
  | succ fuel ih =>
    intro vis v nd hlt
    have hsame : ∀ o, o ∈ vis → VisitSpec g vis vis [SourceValue.VirtualObject o] := by
      intro o ho
      refine ⟨⟨[], by simp⟩, nd, ?_, ?_, ?_⟩
      · intro o1 ho1
        rw [List.mem_singleton] at ho1
        cases ho1
        exact ho
      · intro u hu hnu; exact absurd hu hnu
      · intro Q _ _ u hu hnu; exact absurd hu hnu
    have hplain : ∀ v : SourceValue n, (∀ o, v ≠ SourceValue.VirtualObject o) →
        VisitSpec g vis vis [v] := by
      intro v hv
      refine ⟨⟨[], by simp⟩, nd, ?_, ?_, ?_⟩
      · intro o ho
        rw [List.mem_singleton] at ho
        exact absurd ho.symm (hv o)
      · intro u hu hnu; exact absurd hu hnu
      · intro Q _ _ u hu hnu; exact absurd hu hnu
    cases v with
    | Illegal => exact hplain _ (by intro o h; cases h)
    | ConstantInt k => exact hplain _ (by intro o h; cases h)
    | ConstantOop k => exact hplain _ (by intro o h; cases h)
    | ConstantMetaspace k => exact hplain _ (by intro o h; cases h)
    | Location l t => exact hplain _ (by intro o h; cases h)
    | VirtualObject o =>
      by_cases hm : o ∈ vis
      · have : discover g (fuel + 1) vis (.VirtualObject o) = vis := by
          simp [discover, hm]
        rw [this]
        exact hsame o hm
      · have hd : discover g (fuel + 1) vis (.VirtualObject o)
            = (g o).fields.foldl (discover g fuel) (vis ++ [o]) := by
          simp [discover, hm]
        rw [hd]
        have nd1 : (vis ++ [o]).Nodup := by
          rw [List.nodup_append]
          refine ⟨nd, List.nodup_singleton o, ?_⟩
          intro x hx hx1
          rw [List.mem_singleton] at hx1
          exact hm (hx1 ▸ hx)
        have hlt1 : n < fuel + (vis ++ [o]).length := by
          rw [List.length_append, List.length_singleton]; omega
        obtain ⟨⟨t, e⟩, nd2, tg, cl, q⟩ :=
          foldl_discover_spec g fuel ih (g o).fields (vis ++ [o]) nd1 hlt1
        have ho : o ∈ List.foldl (discover g fuel) (vis ++ [o]) (g o).fields := by
          rw [e]; simp
        refine ⟨⟨[o] ++ t, by rw [e, List.append_assoc]⟩, nd2, ?_, ?_, ?_⟩
        · intro o1 ho1
          rw [List.mem_singleton] at ho1
          cases ho1
          exact ho
        · intro u hu hnu w hw
          by_cases huo : u = o
          · rw [huo] at hw; exact tg w hw
          · refine cl u hu ?_ w hw
            intro hmem
            rcases List.mem_append.mp hmem with h | h
            · exact hnu h
            · exact huo (List.mem_singleton.mp h)
        · intro Q hQ hT u hu hnu
          have hQo : Q o := hT o (List.mem_singleton_self _)
          by_cases huo : u = o
          · rw [huo]; exact hQo
          · refine q Q hQ (fun w hw => hQ o w hQo hw) u hu ?_
            intro hmem
            rcases List.mem_append.mp hmem with h | h
            · exact hnu h
            · exact huo (List.mem_singleton.mp h)

/-- The first pass, as a run of visits over the roots from the empty visited
list, meets `VisitSpec`. -/
theorem allocate_indices_spec {n : Nat} (di : DebugInfo n) :
    VisitSpec di.objects [] (allocate_indices di) di.roots :=
  foldl_discover_spec di.objects (n + 1) (discover_spec di.objects (n + 1)) di.roots []
    List.nodup_nil (by simp)

/-- The first pass lists exactly the source virtual objects of the debug
info. -/
theorem mem_allocate_indices {n : Nat} (di : DebugInfo n) (o : Fin n) :
    o ∈ allocate_indices di ↔ Reachable di o := by
  obtain ⟨-, -, tg, cl, q⟩ := allocate_indices_spec di
  constructor
  · intro h
    exact q (Reachable di) (fun a b ha hb => Reachable.field a b ha hb)
      (fun o ho => Reachable.root o ho) o h (List.not_mem_nil _)
  · intro h
    induction h with
    | root o ho => exact tg o ho
    | field a b _ hb ih => exact cl a ih (List.not_mem_nil _) b hb

/-- C2. For every debug info, cyclic or not, the table of
`record_virtual_objects` has exactly one entry per source virtual object
(the objects reachable from the roots): the index list has no duplicates and
lists exactly these objects, so an object met again gets the index it has
and no new entry; entry `i` describes the object of index `i`; and a field
holding a virtual object is stored as the reference to that object's index,
at which the table has that object's entry. -/
theorem record_virtual_objects_table {n : Nat} (di : DebugInfo n) :
    (allocate_indices di).Nodup
    ∧ (∀ o, o ∈ allocate_indices di ↔ Reachable di o)
    ∧ (∀ o, Reachable di o → (allocate_indices di).count o = 1)
    ∧ (record_virtual_objects di).length = (allocate_indices di).length
    ∧ (∀ (i j : Nat) (o : Fin n), (allocate_indices di)[i]? = some o → (allocate_indices di)[j]? = some o →
        i = j)
    ∧ (∀ (i : Nat) (o : Fin n), (allocate_indices di)[i]? = some o →
        (record_virtual_objects di)[i]?
          = some ({ klass := (di.objects o).klass,
                    field_values :=
                      (di.objects o).fields.map (get_scope_value (allocate_indices di)) }
                  : ObjectValue))
    ∧ (∀ o, Reachable di o → ∀ (j : Nat) (w : Fin n),
        (di.objects o).fields[j]? = some (SourceValue.VirtualObject w) →
        ((di.objects o).fields.map (get_scope_value (allocate_indices di)))[j]?
            = some (ScopeValue.VirtualObjectReference ((allocate_indices di).indexOf w))
        ∧ (allocate_indices di)[(allocate_indices di).indexOf w]? = some w
        ∧ (record_virtual_objects di)[(allocate_indices di).indexOf w]?
            = some ({ klass := (di.objects w).klass,
                      field_values :=
                        (di.objects w).fields.map (get_scope_value (allocate_indices di)) }
                    : ObjectValue))
    ∧ (∀ w, SourceValue.VirtualObject w ∈ di.roots →
        get_scope_value (allocate_indices di) (SourceValue.VirtualObject w)
            = ScopeValue.VirtualObjectReference ((allocate_indices di).indexOf w)
        ∧ (allocate_indices di)[(allocate_indices di).indexOf w]? = some w) := by
  have hnd : (allocate_indices di).Nodup := (allocate_indices_spec di).2.1
  have hentry : ∀ (i : Nat) (o : Fin n), (allocate_indices di)[i]? = some o →
      (record_virtual_objects di)[i]?
        = some ({ klass := (di.objects o).klass,
                  field_values :=
                    (di.objects o).fields.map (get_scope_value (allocate_indices di)) }
                : ObjectValue) := by
    intro i o h
    simp only [record_virtual_objects, record_object_value, List.getElem?_map, h, Option.map_some']
  refine ⟨hnd, mem_allocate_indices di, ?_, ?_, ?_, hentry, ?_, ?_⟩
  · intro o ho
    exact List.count_eq_one_of_mem hnd ((mem_allocate_indices di o).mpr ho)
  · simp [record_virtual_objects]
  · intro i j o hi hj
    obtain ⟨hi1, hi2⟩ := List.getElem?_eq_some.mp hi
    obtain ⟨hj1, hj2⟩ := List.getElem?_eq_some.mp hj
    exact (hnd.getElem_inj_iff).mp (hi2.trans hj2.symm)
  · intro o ho j w hj
    have hw : w ∈ allocate_indices di :=
      (mem_allocate_indices di w).mpr
        (Reachable.field o w ho (List.getElem?_mem hj))
    have hidx := List.getElem?_indexOf hw
    refine ⟨?_, hidx, hentry _ w hidx⟩
    simp only [List.getElem?_map, hj, Option.map_some', get_scope_value]
  · intro w hw
    have hmem : w ∈ allocate_indices di :=
      (mem_allocate_indices di w).mpr (Reachable.root w hw)
    exact ⟨rfl, List.getElem?_indexOf hmem⟩
